import Mathlib

/-!
Shallow embedding of the configuration-resolution and connection-initialization
layer of the terraform helm provider (files `helm/structure.go` and
`helm/provider.go`).

Conventions of the embedding:
* Go `interface{}` values flowing through the getters are modelled by `Value`
  (string, bool, or nil); the Go type assertion `.(string)` is modelled by
  `Value.toStr` and every theorem that relies on a field being a string pins it
  with a hypothesis, so the panic case of the assertion never matters.
* Go `error` results are modelled by `Option String` (`none` = `nil` error) or
  `Except String _` when a value is returned alongside.
* External collaborators (the helm registry client, `url.Parse`,
  `registry.IsOCI`, `newKubeConfig`, `actionConfig.Init`, the environment read
  by schema DefaultFuncs) are parameters of the embedded functions, so the
  theorems quantify over their behaviour.
* The process-wide map `loggedInOCIRegistries` is threaded explicitly as an
  association list; the critical section guarded by `OCILoginMutex` is atomic,
  so a concurrent execution of several calls is modelled by an arbitrary
  sequential interleaving of whole calls (`runLogins`).
-/

set_option autoImplicit false

namespace HelmProvider

/-- A dynamically typed value returned by the terraform SDK getters
(`interface\x7b\x7d` in Go restricted to the shapes this layer inspects). -/
inductive Value where
  | str (s : String)
  | bool (b : Bool)
  | nil
deriving DecidableEq

/-- The Go type assertion `v.(string)`, total here; theorems that depend on it
carry a hypothesis that the value really is a string. -/
def Value.toStr : Value → String
  | .str s => s
  | _ => ""

/-- `dataGetter` lets us call Get methods on both schema.ResourceDiff and
schema.ResourceData (the capability set of the Go interface). -/
structure dataGetter where
  get : String → Value
  getOk : String → Value × Bool
  getOkExists : String → Value × Bool

/-- `overridableData` pairs the provider-level base source with the
per-operation override source. -/
structure overridableData where
  providerData : dataGetter
  override : dataGetter

/-- `overridableData.Get`: if the override source reports the key present via
GetOk, return its value, otherwise fall back to the base Get. -/
def overridableData.Get (o : overridableData) (key : String) : Value :=
  let p := o.override.getOk key
  if p.2 then p.1 else o.providerData.get key

/-- `overridableData.GetOk`: override GetOk wins when present, else base
GetOk. -/
def overridableData.GetOk (o : overridableData) (key : String) : Value × Bool :=
  let p := o.override.getOk key
  if p.2 then (p.1, true) else o.providerData.getOk key

/-- `overridableData.GetOkExists`: override GetOkExists wins when present,
else base GetOkExists. -/
def overridableData.GetOkExists (o : overridableData) (key : String) : Value × Bool :=
  let p := o.override.getOkExists key
  if p.2 then (p.1, true) else o.providerData.getOkExists key

/-- An `overridableData` used through the `dataGetter` interface, as when it is
passed to `k8sGetOk`. -/
def overridableData.toGetter (o : overridableData) : dataGetter :=
  { get := o.Get, getOk := o.GetOk, getOkExists := o.GetOkExists }

/-- The key namespace for kubernetes block attributes (`var k8sPrefix`). -/
def k8sPrefix : String := "kubernetes.0."

/-- The schema lookup `kubernetesResource().Schema[key].DefaultFunc`: `none`
when the field registers no DefaultFunc, otherwise the pair the DefaultFunc
returns, value plus optional error, its behaviour depending on the process
environment and therefore a parameter here. -/
abbrev SchemaDefault := String → Option (Value × Option String)

/-- The presence phase of `k8sGetOk`: GetOk first and, when the returned value
is boolean-typed, the deprecated presence-aware GetOkExists instead, so that an
explicit `false` is still Ok. -/
def k8sPresence (d : dataGetter) (key : String) : Value × Bool :=
  let p := d.getOk ( k8sPrefix ++ key)
  match p.1 with
  | .bool _ => d.getOkExists ( k8sPrefix ++ key)
  | _ => p

/-- `k8sGetOk`: presence phase, then the fix for DefaultFunc not being
triggered on TypeList: when still not Ok and the field registers a
DefaultFunc, take its value, discard its error, and recompute Ok from the
value (non-empty string or true boolean). -/
def k8sGetOk (d : dataGetter) (sd : SchemaDefault) (key : String) : Value × Bool :=
  let q := k8sPresence d key
  if !q.2 then
    match sd key with
    | some (dv, _) =>
      (dv, match dv with
           | .str v => v.length != 0
           | .bool v => v
           | .nil => q.2)
    | none => q
  else q

/-- Presence recomputed from a DefaultFunc result, as the claim states it:
non-empty string or true boolean means present, anything else absent. -/
def defaultPresence : Value → Bool
  | .str v => v.length != 0
  | .bool v => v
  | .nil => false

/-- The process-wide `loggedInOCIRegistries` map, host to marker string,
threaded explicitly. -/
abbrev RegMap := List (String × String)

/-- External collaborators of `OCIRegistryLogin`: the outcome of
`registry.NewClient` (`none` = success), the scheme test `registry.IsOCI`, the
host extraction `url.Parse(u).Host` (error or host), and the registry
handshake `registryClient.Login(host, basicAuth(user, pass))`
(`none` = success). -/
structure OCIEnv where
  newClient : Option String
  isOCI : String → Bool
  parseHost : String → Except String String
  login : String → String → String → Option String

/-- What one `OCIRegistryLogin` call produced: the returned Go error
(`none` = nil), the login map after the call, how many times the handshake was
invoked, and whether `actionConfig.RegistryClient` was assigned. -/
structure OCIResult where
  err : Option String
  registries : RegMap
  handshakes : Nat
  clientSet : Bool
deriving DecidableEq

/-- The `ociURL` computed by `OCIRegistryLogin`: the repository when it is an
OCI reference, else the chart name when it is, else the empty string. -/
def ociURLOf (env : OCIEnv) (d : dataGetter) : String :=
  let repository := (d.get "repository").toStr
  let chartName := (d.get "chart").toStr
  if env.isOCI repository then repository
  else if env.isOCI chartName then chartName
  else ""

/-- `OCIRegistryLogin`: create the client, assign it, and when the reference is
registry-addressed and both credentials are non-empty, parse the host and,
under `OCILoginMutex`, either observe the host as already logged in or perform
the handshake and record the host on success. -/
def OCIRegistryLogin (env : OCIEnv) (d : dataGetter) (regs : RegMap) : OCIResult :=
  match env.newClient with
  | some e => ⟨some ("could not create OCI registry client: " ++ e), regs, 0, false⟩
  | none =>
    let ociURL := ociURLOf env d
    if ociURL = "" then ⟨none, regs, 0, true⟩
    else
      let username := (d.get "repository_username").toStr
      let password := (d.get "repository_password").toStr
      if username ≠ "" ∧ password ≠ "" then
        match env.parseHost ociURL with
        | .error e => ⟨some ("could not parse OCI registry URL: " ++ e), regs, 0, true⟩
        | .ok host =>
          if (regs.lookup host).isSome then
            ⟨none, regs, 0, true⟩
          else
            match env.login host username password with
            | some e =>
              ⟨some ("could not login to OCI registry \"" ++ host ++ "\": " ++ e),
                regs, 1, true⟩
            | none => ⟨none, (host, "") :: regs, 1, true⟩
      else ⟨none, regs, 0, true⟩

/-- A sequential interleaving of whole `OCIRegistryLogin` calls threading the
shared map; since the shared state is touched only inside the mutex-guarded
critical section, any concurrent execution is equivalent to one of these.
Returns the final map, the total number of handshakes, and whether every call
returned success. -/
def runLogins (env : OCIEnv) (ds : List dataGetter) (regs : RegMap) :
    RegMap × Nat × Bool :=
  match ds with
  | [] => (regs, 0, true)
  | d :: rest =>
    let r := OCIRegistryLogin env d regs
    let (regs2, n, allOk) := runLogins env rest r.registries
    (regs2, r.handshakes + n, r.err.isNone && allOk)

/-- A call targets `host` with valid credentials: its reference is
registry-addressed, parses to `host`, both credentials are non-empty, and the
handshake for them succeeds. -/
def targetsHost (env : OCIEnv) (host : String) (d : dataGetter) : Prop :=
  ociURLOf env d ≠ "" ∧
  env.parseHost (ociURLOf env d) = .ok host ∧
  (d.get "repository_username").toStr ≠ "" ∧
  (d.get "repository_password").toStr ≠ "" ∧
  env.login host (d.get "repository_username").toStr
    (d.get "repository_password").toStr = none

/-- The provider `Meta` state: the base configuration data, the helm cli
settings (an external struct, kept abstract), the storage driver name, and the
experiment toggles. The embedded `Meta.Lock` mutex is modelled by the event
trace of `HelmConfigResult`. -/
structure Meta (Settings : Type) where
  data : dataGetter
  settings : Settings
  HelmDriver : String
  experiments : List (String × Bool)

/-- An acquire or release of the `Meta` mutex, in program order. -/
inductive MutexEvent where
  | acquire
  | release
deriving DecidableEq

/-- What one `GetHelmConfiguration` call produced: the returned configuration
or error, the provider state as left behind, and the mutex events in order. -/
structure HelmConfigResult (Settings KubeConf ActionConf : Type) where
  config : Except String ActionConf
  meta : Meta Settings
  events : List MutexEvent

/-- `Meta.GetHelmConfiguration`: lock, build the kube config from the
overridable data, init the action configuration with the namespace and the
driver, unlock on every return (the deferred Unlock). `newKubeConfig` and
`actionConfig.Init` are external collaborators, passed as parameters. -/
def GetHelmConfiguration {Settings KubeConf ActionConf : Type}
    (m : Meta Settings)
    (newKubeConfig : overridableData → String → Except String KubeConf)
    (initAction : KubeConf → String → String → Except String ActionConf)
    (d : dataGetter) (ns : String) :
    HelmConfigResult Settings KubeConf ActionConf :=
  let evs := [MutexEvent.acquire]
  match newKubeConfig ⟨m.data, d⟩ ns with
  | .error e => ⟨.error e, m, evs ++ [MutexEvent.release]⟩
  | .ok kc =>
    match initAction kc ns m.HelmDriver with
    | .error e => ⟨.error e, m, evs ++ [MutexEvent.release]⟩
    | .ok ac => ⟨.ok ac, m, evs ++ [MutexEvent.release]⟩

/-- Every mutex acquire in the trace is matched by a release, and the lock is
not held at the end of the trace. -/
def lockBalanced (evs : List MutexEvent) : Prop :=
  evs.count MutexEvent.acquire = evs.count MutexEvent.release ∧
  evs.getLast? = some MutexEvent.release

/-! Path lemmas for `OCIRegistryLogin`, shared by several theorems below. -/

theorem OCIRegistryLogin_present (env : OCIEnv) (d : dataGetter) (regs : RegMap)
    (host s : String)
    (hnc : env.newClient = none)
    (hurl : ociURLOf env d ≠ "")
    (hu : (d.get "repository_username").toStr ≠ "")
    (hp : (d.get "repository_password").toStr ≠ "")
    (hph : env.parseHost (ociURLOf env d) = .ok host)
    (hpres : regs.lookup host = some s) :
    OCIRegistryLogin env d regs = ⟨none, regs, 0, true⟩ := by
  simp [OCIRegistryLogin, hnc, hurl, hu, hp, hph, hpres]

theorem OCIRegistryLogin_absent_ok (env : OCIEnv) (d : dataGetter) (regs : RegMap)
    (host : String)
    (hnc : env.newClient = none)
    (hurl : ociURLOf env d ≠ "")
    (hu : (d.get "repository_username").toStr ≠ "")
    (hp : (d.get "repository_password").toStr ≠ "")
    (hph : env.parseHost (ociURLOf env d) = .ok host)
    (habs : regs.lookup host = none)
    (hok : env.login host (d.get "repository_username").toStr
      (d.get "repository_password").toStr = none) :
    OCIRegistryLogin env d regs = ⟨none, (host, "") :: regs, 1, true⟩ := by
  simp [OCIRegistryLogin, hnc, hurl, hu, hp, hph, habs, hok]

theorem OCIRegistryLogin_absent_fail (env : OCIEnv) (d : dataGetter) (regs : RegMap)
    (host e : String)
    (hnc : env.newClient = none)
    (hurl : ociURLOf env d ≠ "")
    (hu : (d.get "repository_username").toStr ≠ "")
    (hp : (d.get "repository_password").toStr ≠ "")
    (hph : env.parseHost (ociURLOf env d) = .ok host)
    (habs : regs.lookup host = none)
    (hfail : env.login host (d.get "repository_username").toStr
      (d.get "repository_password").toStr = some e) :
    OCIRegistryLogin env d regs =
      ⟨some ("could not login to OCI registry \"" ++ host ++ "\": " ++ e),
        regs, 1, true⟩ := by
  simp [OCIRegistryLogin, hnc, hurl, hu, hp, hph, habs, hfail]

theorem runLogins_all_present (env : OCIEnv) (host s : String) :
    ∀ (ds : List dataGetter) (regs : RegMap),
    env.newClient = none →
    (∀ d ∈ ds, targetsHost env host d) →
    regs.lookup host = some s →
    runLogins env ds regs = (regs, 0, true) := by
  intro ds
  induction ds with
  | nil => intro regs _ _ _; rfl
  | cons d rest ih =>
    intro regs hnc hall hpres
    obtain ⟨hurl, hph, hu, hp, _⟩ := hall d (List.mem_cons_self d rest)
    have h1 := OCIRegistryLogin_present env d regs host s hnc hurl hu hp hph hpres
    simp only [runLogins, h1]
    have h2 := ih regs hnc (fun d hd => hall d (List.mem_cons_of_mem _ hd)) hpres
    simp [h2]

/-! Concrete sources used by the witnesses. -/

/-- A base source: driver present as a string, everything else a present true
boolean. -/
def gBase : dataGetter :=
  { get := fun key => if key = "driver" then .str "secret" else .bool true
    getOk := fun key =>
      if key = "driver" then (.str "secret", true) else (.bool true, true)
    getOkExists := fun key =>
      if key = "driver" then (.str "secret", true) else (.bool true, true) }

/-- An override source that declares only "host" present. -/
def gOverride : dataGetter :=
  { get := fun key => if key = "host" then .str "ovr" else .nil
    getOk := fun key => if key = "host" then (.str "ovr", true) else (.nil, false)
    getOkExists := fun key =>
      if key = "host" then (.str "ovr", true) else (.nil, false) }

/-- An override source whose "kubernetes.0.insecure" is explicitly false: GetOk
conflates that with absent, GetOkExists sees it. -/
def gBoolOverride : dataGetter :=
  { get := fun _ => .nil
    getOk := fun key =>
      if key = "kubernetes.0.insecure" then (.bool false, false) else (.nil, false)
    getOkExists := fun key =>
      if key = "kubernetes.0.insecure" then (.bool false, true) else (.nil, false) }

/-- A base source whose "kubernetes.0.insecure" is a present true boolean. -/
def gBoolBase : dataGetter :=
  { get := fun _ => .nil
    getOk := fun key =>
      if key = "kubernetes.0.insecure" then (.bool true, true) else (.nil, false)
    getOkExists := fun key =>
      if key = "kubernetes.0.insecure" then (.bool true, true) else (.nil, false) }

/-- A source that reports every key absent. -/
def gAbsent : dataGetter :=
  { get := fun _ => .nil
    getOk := fun _ => (.nil, false)
    getOkExists := fun _ => (.nil, false) }

/-! The claims. -/

/-- C1: override precedence of configuration resolution. For every key, when
the override source reports the key present through GetOk, `overridableData.Get`
and `overridableData.GetOk` return exactly the override value; when the
override reports it absent, they return exactly the base result, never mixing
the two. -/
theorem override_precedence (o : overridableData) (key : String) :
    (∀ v : Value, o.override.getOk key = (v, true) →
      o.Get key = v ∧ o.GetOk key = (v, true)) ∧
    ((o.override.getOk key).2 = false →
      o.Get key = o.providerData.get key ∧
      o.GetOk key = o.providerData.getOk key) := by
  constructor
  · intro v hv
    constructor <;> simp [overridableData.Get, overridableData.GetOk, hv]
  · intro h
    constructor <;> simp [overridableData.Get, overridableData.GetOk, h]

/-- C1 witness: with the concrete sources, "host" is taken from the override
and "driver" falls through to the base. -/
theorem override_precedence_witness :
    ((overridableData.mk gBase gOverride).Get "host" = .str "ovr" ∧
      (overridableData.mk gBase gOverride).GetOk "host" = (.str "ovr", true)) ∧
    ((overridableData.mk gBase gOverride).Get "driver" = gBase.get "driver" ∧
      (overridableData.mk gBase gOverride).GetOk "driver" = gBase.getOk "driver") :=
  ⟨(override_precedence ⟨gBase, gOverride⟩ "host").1 (.str "ovr") (by decide),
    (override_precedence ⟨gBase, gOverride⟩ "driver").2 (by decide)⟩

/-- C2: boolean zero-value presence. For a kubernetes field whose override
value is explicitly false (GetOkExists reports it present) while the base holds
a present true boolean, `k8sGetOk` routes boolean-typed fields through the
presence-aware GetOkExists and returns the explicit false, present, for any
schema default. -/
theorem bool_false_override_wins (base ovr : dataGetter) (sd : SchemaDefault)
    (key : String)
    (h1 : ovr.getOk ( k8sPrefix ++ key) = (.bool false, false))
    (h2 : base.getOk ( k8sPrefix ++ key) = (.bool true, true))
    (h3 : ovr.getOkExists ( k8sPrefix ++ key) = (.bool false, true)) :
    k8sGetOk (overridableData.toGetter ⟨base, ovr⟩) sd key = (.bool false, true) := by
  simp [k8sGetOk, k8sPresence, overridableData.toGetter, overridableData.GetOk,
    overridableData.GetOkExists, h1, h2, h3]

/-- C2 witness: insecure explicitly false in the override beats a true base
value. -/
theorem bool_false_override_wins_witness :
    k8sGetOk (overridableData.toGetter ⟨gBoolBase, gBoolOverride⟩)
      (fun _ => none) "insecure" = (.bool false, true) :=
  bool_false_override_wins gBoolBase gBoolOverride (fun _ => none) "insecure"
    (by decide) (by decide) (by decide)

/-- C6: list-default fallback. When the presence phase of `k8sGetOk` reports
the field absent and the schema registers a DefaultFunc, the resolver returns
the value the DefaultFunc produced, with presence recomputed from that value:
non-empty string or true boolean means present, empty string, false or nil
means absent. -/
theorem k8s_default_fallback (d : dataGetter) (sd : SchemaDefault) (key : String)
    (dv : Value) (e : Option String)
    (h1 : (k8sPresence d key).2 = false)
    (h2 : sd key = some (dv, e)) :
    k8sGetOk d sd key = (dv, defaultPresence dv) := by
  simp only [k8sGetOk, h1, h2, Bool.not_false, if_true]
  cases dv <;> simp [defaultPresence, h1]

/-- C6 witness: an absent field with a string DefaultFunc yields the default,
present. -/
theorem k8s_default_fallback_witness :
    k8sGetOk gAbsent (fun _ => some (.str "kubecfg", none)) "config_path"
      = (.str "kubecfg", true) :=
  k8s_default_fallback gAbsent (fun _ => some (.str "kubecfg", none))
    "config_path" (.str "kubecfg") none (by decide) rfl

/-- C7 counterexample: a DefaultFunc that fails does not propagate its
failure. At a concrete absent field whose DefaultFunc returns a value together
with an error, `k8sGetOk` reports plain success with the produced value, and
its output is identical to the run where the same DefaultFunc succeeds: the
error is discarded (`value, _ = s.DefaultFunc()`), and the `(Value × Bool)`
codomain of `k8sGetOk` carries no error to any caller. -/
theorem k8s_default_error_propagation_cex :
    k8sGetOk gAbsent
        (fun _ => some (.str "v1beta1", some "default producer failed")) "host"
      = (.str "v1beta1", true) ∧
    k8sGetOk gAbsent
        (fun _ => some (.str "v1beta1", some "default producer failed")) "host"
      = k8sGetOk gAbsent (fun _ => some (.str "v1beta1", none)) "host" := by
  constructor <;> decide

/-- C7 amended: a failing default producer is discarded, not propagated. The
result of `k8sGetOk` depends only on the value component of the DefaultFunc
result, never on its error component, so a resolution-time producer failure is
invisible to connection building. -/
theorem k8s_default_error_discarded (d : dataGetter) (f : String → Option Value)
    (e1 e2 : String → Option String) (key : String) :
    k8sGetOk d (fun k => (f k).map (fun v => (v, e1 k))) key
      = k8sGetOk d (fun k => (f k).map (fun v => (v, e2 k))) key := by
  simp only [k8sGetOk]
  cases h : f key <;> simp [h]

/-- C8: connection-build frame condition. On every exit path of
`GetHelmConfiguration` — kube config construction failure, action init
failure, or success — the provider state is returned unmodified and the mutex
trace is exactly one acquire followed by its release before the return. -/
theorem helm_configuration_frame {S KC AC : Type} (m : Meta S)
    (nkc : overridableData → String → Except String KC)
    (ia : KC → String → String → Except String AC)
    (d : dataGetter) (ns : String) :
    (GetHelmConfiguration m nkc ia d ns).meta = m ∧
    (GetHelmConfiguration m nkc ia d ns).events
      = [MutexEvent.acquire, MutexEvent.release] ∧
    lockBalanced (GetHelmConfiguration m nkc ia d ns).events := by
  cases h1 : nkc ⟨m.data, d⟩ ns with
  | error e =>
    simp [GetHelmConfiguration, h1, lockBalanced]
  | ok kc =>
    cases h2 : ia kc ns m.HelmDriver with
    | error e =>
      simp [GetHelmConfiguration, h1, h2, lockBalanced]
    | ok ac =>
      simp [GetHelmConfiguration, h1, h2, lockBalanced]

/-- A collaborator environment where client creation, host parsing and the
handshake all succeed. -/
def envOCI : OCIEnv :=
  { newClient := none
    isOCI := fun s => List.isPrefixOf "oci://".data s.data
    parseHost := fun _ => .ok "registry.example.com"
    login := fun _ _ _ => none }

/-- The same environment with a failing handshake. -/
def envOCIFail : OCIEnv :=
  { newClient := none
    isOCI := fun s => List.isPrefixOf "oci://".data s.data
    parseHost := fun _ => .ok "registry.example.com"
    login := fun _ _ _ => some "401 unauthorized" }

/-- An operation whose repository is an OCI reference with full credentials. -/
def dOCI : dataGetter :=
  { get := fun key =>
      if key = "repository" then .str "oci://registry.example.com/charts"
      else if key = "repository_username" then .str "user"
      else if key = "repository_password" then .str "pass"
      else .str ""
    getOk := fun _ => (.nil, false)
    getOkExists := fun _ => (.nil, false) }

/-- An OCI-addressed operation with a username but an empty password. -/
def dOCIPartial : dataGetter :=
  { get := fun key =>
      if key = "repository" then .str "oci://registry.example.com/charts"
      else if key = "repository_username" then .str "user"
      else .str ""
    getOk := fun _ => (.nil, false)
    getOkExists := fun _ => (.nil, false) }

/-- An operation whose repository and chart are not registry-addressed, with
full credentials supplied. -/
def dHTTP : dataGetter :=
  { get := fun key =>
      if key = "repository" then .str "https://charts.example.com"
      else if key = "chart" then .str "mychart"
      else if key = "repository_username" then .str "user"
      else if key = "repository_password" then .str "pass"
      else .str ""
    getOk := fun _ => (.nil, false)
    getOkExists := fun _ => (.nil, false) }

/-- C3: registry-login idempotence per host. When the host of the
registry-addressed reference is already in the login map, `OCIRegistryLogin`
returns success with zero handshake invocations and leaves the map
unchanged. -/
theorem oci_login_idempotent_per_host (env : OCIEnv) (d : dataGetter)
    (regs : RegMap) (host s : String)
    (hnc : env.newClient = none)
    (hurl : ociURLOf env d ≠ "")
    (hu : (d.get "repository_username").toStr ≠ "")
    (hp : (d.get "repository_password").toStr ≠ "")
    (hph : env.parseHost (ociURLOf env d) = .ok host)
    (hpres : regs.lookup host = some s) :
    OCIRegistryLogin env d regs = ⟨none, regs, 0, true⟩ :=
  OCIRegistryLogin_present env d regs host s hnc hurl hu hp hph hpres

/-- C3 witness: a second login to registry.example.com is a no-op. -/
theorem oci_login_idempotent_per_host_witness :
    OCIRegistryLogin envOCI dOCI [("registry.example.com", "")]
      = ⟨none, [("registry.example.com", "")], 0, true⟩ :=
  oci_login_idempotent_per_host envOCI dOCI [("registry.example.com", "")]
    "registry.example.com" "" rfl (by decide) (by decide) (by decide) rfl
    (by decide)

/-- C4: atomicity of login failure. A failed handshake returns the wrapping
error and does not record the host, so a subsequent call for the same host
whose handshake succeeds performs a new handshake and succeeds. -/
theorem oci_login_failure_atomic (env env2 : OCIEnv) (d d2 : dataGetter)
    (regs : RegMap) (host e : String)
    (hnc : env.newClient = none)
    (hurl : ociURLOf env d ≠ "")
    (hu : (d.get "repository_username").toStr ≠ "")
    (hp : (d.get "repository_password").toStr ≠ "")
    (hph : env.parseHost (ociURLOf env d) = .ok host)
    (habs : regs.lookup host = none)
    (hfail : env.login host (d.get "repository_username").toStr
      (d.get "repository_password").toStr = some e)
    (hnc2 : env2.newClient = none)
    (hurl2 : ociURLOf env2 d2 ≠ "")
    (hu2 : (d2.get "repository_username").toStr ≠ "")
    (hp2 : (d2.get "repository_password").toStr ≠ "")
    (hph2 : env2.parseHost (ociURLOf env2 d2) = .ok host)
    (hok2 : env2.login host (d2.get "repository_username").toStr
      (d2.get "repository_password").toStr = none) :
    OCIRegistryLogin env d regs
      = ⟨some ("could not login to OCI registry \"" ++ host ++ "\": " ++ e),
          regs, 1, true⟩ ∧
    OCIRegistryLogin env2 d2 regs = ⟨none, (host, "") :: regs, 1, true⟩ :=
  ⟨OCIRegistryLogin_absent_fail env d regs host e hnc hurl hu hp hph habs hfail,
    OCIRegistryLogin_absent_ok env2 d2 regs host hnc2 hurl2 hu2 hp2 hph2 habs hok2⟩

/-- C4 witness: a 401 handshake leaves the map empty and the retry with a
working handshake logs in. -/
theorem oci_login_failure_atomic_witness :
    OCIRegistryLogin envOCIFail dOCI []
      = ⟨some ("could not login to OCI registry \"registry.example.com\": "
          ++ "401 unauthorized"), [], 1, true⟩ ∧
    OCIRegistryLogin envOCI dOCI [] = ⟨none, [("registry.example.com", "")], 1, true⟩ :=
  oci_login_failure_atomic envOCIFail envOCI dOCI dOCI []
    "registry.example.com" "401 unauthorized" rfl (by decide) (by decide)
    (by decide) rfl rfl rfl rfl (by decide) (by decide) (by decide) rfl rfl

/-- C5: non-registry bypass. When neither the repository nor the chart
reference is an OCI URL, `OCIRegistryLogin` returns success with zero
handshake invocations and the login map unchanged, whatever the credentials
are. -/
theorem oci_non_registry_bypass (env : OCIEnv) (d : dataGetter) (regs : RegMap)
    (hnc : env.newClient = none)
    (hrep : env.isOCI ((d.get "repository").toStr) = false)
    (hch : env.isOCI ((d.get "chart").toStr) = false) :
    OCIRegistryLogin env d regs = ⟨none, regs, 0, true⟩ := by
  have hurl : ociURLOf env d = "" := by simp [ociURLOf, hrep, hch]
  simp [OCIRegistryLogin, hnc, hurl]

/-- C5 witness: an https repository with full credentials never touches the
login machinery. -/
theorem oci_non_registry_bypass_witness :
    OCIRegistryLogin envOCI dHTTP [] = ⟨none, [], 0, true⟩ :=
  oci_non_registry_bypass envOCI dHTTP [] rfl (by decide) (by decide)

/-- C9: at-most-once login per host. Any sequential interleaving of a
non-empty batch of `OCIRegistryLogin` calls that all target the same host with
valid credentials, starting from a map without that host, performs exactly one
handshake in total and every call returns success. The interleaving of whole
calls is faithful because the shared map is only touched inside the
`OCILoginMutex` critical section. -/
theorem oci_login_at_most_once (env : OCIEnv) (host : String)
    (ds : List dataGetter) (regs : RegMap)
    (hnc : env.newClient = none)
    (hall : ∀ d ∈ ds, targetsHost env host d)
    (hne : ds ≠ [])
    (habs : regs.lookup host = none) :
    (runLogins env ds regs).2.1 = 1 ∧ (runLogins env ds regs).2.2 = true := by
  match ds, hne with
  | d :: rest, _ =>
    obtain ⟨hurl, hph, hu, hp, hok⟩ := hall d (List.mem_cons_self d rest)
    have h1 := OCIRegistryLogin_absent_ok env d regs host hnc hurl hu hp hph habs hok
    have h2 : ((host, "") :: regs).lookup host = some "" := by simp [List.lookup]
    have h3 := runLogins_all_present env host "" rest ((host, "") :: regs) hnc
      (fun d hd => hall d (List.mem_cons_of_mem _ hd)) h2
    simp [runLogins, h1, h3]

/-- C9 witness: three calls for registry.example.com from a fresh map make one
handshake and all succeed. -/
theorem oci_login_at_most_once_witness :
    (runLogins envOCI [dOCI, dOCI, dOCI] []).2.1 = 1 ∧
    (runLogins envOCI [dOCI, dOCI, dOCI] []).2.2 = true :=
  oci_login_at_most_once envOCI "registry.example.com" [dOCI, dOCI, dOCI] [] rfl
    (by
      intro d hd
      simp only [List.mem_cons, List.not_mem_nil, or_false] at hd
      rcases hd with rfl | rfl | rfl <;>
        exact ⟨by decide, rfl, by decide, by decide, rfl⟩)
    (List.cons_ne_nil _ _) rfl

/-- C10: partial credentials behave as absent. For a registry-addressed
reference with exactly one of username and password empty, `OCIRegistryLogin`
performs no handshake, leaves the login map unchanged and returns success. -/
theorem oci_partial_credentials_no_login (env : OCIEnv) (d : dataGetter)
    (regs : RegMap)
    (hnc : env.newClient = none)
    (hurl : ociURLOf env d ≠ "")
    (hxor : ((d.get "repository_username").toStr = ""
        ∧ (d.get "repository_password").toStr ≠ "")
      ∨ ((d.get "repository_username").toStr ≠ ""
        ∧ (d.get "repository_password").toStr = "")) :
    OCIRegistryLogin env d regs = ⟨none, regs, 0, true⟩ := by
  rcases hxor with ⟨h1, h2⟩ | ⟨h1, h2⟩ <;>
    simp [OCIRegistryLogin, hnc, hurl, h1, h2]

/-- C10 witness: username without password skips the handshake. -/
theorem oci_partial_credentials_no_login_witness :
    OCIRegistryLogin envOCI dOCIPartial [] = ⟨none, [], 0, true⟩ :=
  oci_partial_credentials_no_login envOCI dOCIPartial [] rfl (by decide)
    (Or.inr ⟨by decide, by decide⟩)

end HelmProvider
